import Mathlib

/-
Shallow embedding of the geo library's bounding-shape subsystem
(src/shapes/mod.rs, src/vectors/mod.rs), generic over a numeric type T.
The Rust code is generic over `T: Real` (an ordered field with division);
we model T as a `LinearOrderedField`.  Each definition mirrors the body of
the corresponding Rust function; `T::one() + T::one()` is rendered as
`(1 + 1 : T)` and boolean `&&`-chains of comparisons as `decide` of the
conjunction.
-/

namespace Geo

variable {T : Type} [LinearOrderedField T]

@[ext]
structure Vector2 (T : Type) where
  x : T
  y : T
  deriving DecidableEq

@[ext]
structure Vector3 (T : Type) where
  x : T
  y : T
  z : T
  deriving DecidableEq

@[ext]
structure Vector4 (T : Type) where
  x : T
  y : T
  z : T
  w : T
  deriving DecidableEq

instance : Add (Vector2 T) := ⟨fun a b => ⟨a.x + b.x, a.y + b.y⟩⟩

instance : Sub (Vector2 T) := ⟨fun a b => ⟨a.x - b.x, a.y - b.y⟩⟩

instance : HDiv (Vector2 T) T (Vector2 T) := ⟨fun v s => ⟨v.x / s, v.y / s⟩⟩

instance : Add (Vector3 T) := ⟨fun a b => ⟨a.x + b.x, a.y + b.y, a.z + b.z⟩⟩

instance : Sub (Vector3 T) := ⟨fun a b => ⟨a.x - b.x, a.y - b.y, a.z - b.z⟩⟩

@[simp]
theorem Vector2.add_x (a b : Vector2 T) : (a + b).x = a.x + b.x := rfl

@[simp]
theorem Vector2.add_y (a b : Vector2 T) : (a + b).y = a.y + b.y := rfl

@[simp]
theorem Vector2.sub_x (a b : Vector2 T) : (a - b).x = a.x - b.x := rfl

@[simp]
theorem Vector2.sub_y (a b : Vector2 T) : (a - b).y = a.y - b.y := rfl

@[simp]
theorem Vector2.div_x (a : Vector2 T) (s : T) : (a / s).x = a.x / s := rfl

@[simp]
theorem Vector2.div_y (a : Vector2 T) (s : T) : (a / s).y = a.y / s := rfl

@[simp]
theorem Vector3.add_x3 (a b : Vector3 T) : (a + b).x = a.x + b.x := rfl

@[simp]
theorem Vector3.add_y3 (a b : Vector3 T) : (a + b).y = a.y + b.y := rfl

@[simp]
theorem Vector3.add_z3 (a b : Vector3 T) : (a + b).z = a.z + b.z := rfl

@[simp]
theorem Vector3.sub_x3 (a b : Vector3 T) : (a - b).x = a.x - b.x := rfl

@[simp]
theorem Vector3.sub_y3 (a b : Vector3 T) : (a - b).y = a.y - b.y := rfl

@[simp]
theorem Vector3.sub_z3 (a b : Vector3 T) : (a - b).z = a.z - b.z := rfl

/-- Vector2::sqr_magnitude. -/
def Vector2.sqr_magnitude (v : Vector2 T) : T :=
  v.x * v.x + v.y * v.y

/-- Vector3::sqr_magnitude. -/
def Vector3.sqr_magnitude (v : Vector3 T) : T :=
  v.x * v.x + v.y * v.y + v.z * v.z

/-- Rect with fields x, y, width, height. -/
structure Rect (T : Type) where
  x : T
  y : T
  width : T
  height : T
  deriving DecidableEq

/-- Rect::get_center. -/
def Rect.get_center (r : Rect T) : Vector2 T :=
  ⟨r.x + r.width / (1 + 1), r.y + r.height / (1 + 1)⟩

/-- Rect::contains: inclusive min/max test on both axes. -/
def Rect.contains (r : Rect T) (point : Vector2 T) : Bool :=
  decide (point.x ≥ r.x ∧ point.x ≤ r.x + r.width ∧
          point.y ≥ r.y ∧ point.y ≤ r.y + r.height)

/-- Area2D: lower_left and upper_right corners. -/
structure Area2D (T : Type) where
  lower_left : Vector2 T
  upper_right : Vector2 T
  deriving DecidableEq

/-- Area2D::new with positional scalar arguments. -/
def Area2D.new (lower_left_x lower_left_y upper_right_x upper_right_y : T) : Area2D T :=
  ⟨⟨lower_left_x, lower_left_y⟩, ⟨upper_right_x, upper_right_y⟩⟩

/-- Area2D::get_width. -/
def Area2D.get_width (a : Area2D T) : T :=
  a.upper_right.x - a.lower_left.x

/-- Area2D::get_height. -/
def Area2D.get_height (a : Area2D T) : T :=
  a.upper_right.y - a.lower_left.y

/-- Area2D::get_size. -/
def Area2D.get_size (a : Area2D T) : Vector2 T :=
  ⟨a.get_width, a.get_height⟩

/-- Area2D::get_center: lower_left + size / 2. -/
def Area2D.get_center (a : Area2D T) : Vector2 T :=
  let half_size := a.get_size / ((1 : T) + 1)
  a.lower_left + half_size

/-- Area2D::set_width: distributes half the width delta to each corner. -/
def Area2D.set_width (a : Area2D T) (width : T) : Area2D T :=
  let current_width := a.upper_right.x - a.lower_left.x
  let delta := current_width - width
  let half_delta := delta / (1 + 1)
  ⟨⟨a.lower_left.x + half_delta, a.lower_left.y⟩,
   ⟨a.upper_right.x - half_delta, a.upper_right.y⟩⟩

/-- Area2D::set_center: translate both corners by the center delta. -/
def Area2D.set_center (a : Area2D T) (center : Vector2 T) : Area2D T :=
  let current_center := a.get_center
  let delta := center - current_center
  ⟨a.lower_left + delta, a.upper_right + delta⟩

/-- Area2D::contains: inclusive min/max test on both axes. -/
def Area2D.contains (a : Area2D T) (point : Vector2 T) : Bool :=
  decide (point.x ≥ a.lower_left.x ∧ point.x ≤ a.upper_right.x ∧
          point.y ≥ a.lower_left.y ∧ point.y ≤ a.upper_right.y)

/-- Bounds2D: center and per-axis half-extents. -/
structure Bounds2D (T : Type) where
  center : Vector2 T
  extents : Vector2 T
  deriving DecidableEq

/-- Bounds2D::new with positional scalar arguments. -/
def Bounds2D.new (center_x center_y extents_x extents_y : T) : Bounds2D T :=
  ⟨⟨center_x, center_y⟩, ⟨extents_x, extents_y⟩⟩

/-- Bounds2D::set_width: adjusts only extents.x; center is untouched. -/
def Bounds2D.set_width (b : Bounds2D T) (width : T) : Bounds2D T :=
  let current_width := b.extents.x + b.extents.x
  let delta := current_width - width
  let half_delta := delta / (1 + 1)
  ⟨b.center, ⟨b.extents.x - half_delta, b.extents.y⟩⟩

/-- Bounds2D::contains: strict comparisons on both axes. -/
def Bounds2D.contains (b : Bounds2D T) (point : Vector2 T) : Bool :=
  decide (b.center.x - b.extents.x < point.x ∧ b.center.x + b.extents.x > point.x ∧
          b.center.y - b.extents.y < point.y ∧ b.center.y + b.extents.y > point.y)

/-- From Area2D for Bounds2D: note the source passes get_width() / 2 for
BOTH extents (the y-extent does not use get_height()). -/
def Bounds2D.from_area2d (area : Area2D T) : Bounds2D T :=
  Bounds2D.new
    area.get_center.x
    area.get_center.y
    (area.get_width / (1 + 1))
    (area.get_width / (1 + 1))

/-- From Bounds2D for Area2D: corners are center minus/plus extents. -/
def Area2D.from_bounds2d (bounds : Bounds2D T) : Area2D T :=
  Area2D.new
    (bounds.center.x - bounds.extents.x)
    (bounds.center.y - bounds.extents.y)
    (bounds.center.x + bounds.extents.x)
    (bounds.center.y + bounds.extents.y)

/-- Area3D: lower_left and upper_right corners in 3D. -/
structure Area3D (T : Type) where
  lower_left : Vector3 T
  upper_right : Vector3 T
  deriving DecidableEq

/-- Area3D::get_width. -/
def Area3D.get_width (a : Area3D T) : T :=
  a.upper_right.x - a.lower_left.x

/-- Area3D::get_height. -/
def Area3D.get_height (a : Area3D T) : T :=
  a.upper_right.y - a.lower_left.y

/-- Area3D::get_depth. -/
def Area3D.get_depth (a : Area3D T) : T :=
  a.upper_right.z - a.lower_left.z

/-- Area3D::get_center: componentwise average of the corners. -/
def Area3D.get_center (a : Area3D T) : Vector3 T :=
  ⟨(a.lower_left.x + a.upper_right.x) / (1 + 1),
   (a.lower_left.y + a.upper_right.y) / (1 + 1),
   (a.lower_left.z + a.upper_right.z) / (1 + 1)⟩

/-- Vector3::add_assign: the source's AddAssign impl for Vector3 updates
only the x and y components; the z component is left unchanged. -/
def Vector3.add_assign (a rhs : Vector3 T) : Vector3 T :=
  ⟨a.x + rhs.x, a.y + rhs.y, a.z⟩

@[simp]
theorem Vector3.add_assign_x (a b : Vector3 T) : (a.add_assign b).x = a.x + b.x := rfl

@[simp]
theorem Vector3.add_assign_y (a b : Vector3 T) : (a.add_assign b).y = a.y + b.y := rfl

@[simp]
theorem Vector3.add_assign_z (a b : Vector3 T) : (a.add_assign b).z = a.z := rfl

/-- Area3D::set_center: delta = center - get_center(), then
lower_left += delta and upper_right += delta, where Vector3's += adds
only the x and y components and never touches z. -/
def Area3D.set_center (a : Area3D T) (center : Vector3 T) : Area3D T :=
  let current_center := a.get_center
  let delta := center - current_center
  ⟨a.lower_left.add_assign delta, a.upper_right.add_assign delta⟩

/-- Area4D: lower_left and upper_right corners in 4D. -/
structure Area4D (T : Type) where
  lower_left : Vector4 T
  upper_right : Vector4 T
  deriving DecidableEq

/-- Area4D::new with positional scalar arguments (lower_left components
first, then upper_right components). -/
def Area4D.new (lower_left_x lower_left_y lower_left_z lower_left_w upper_right_x upper_right_y upper_right_z upper_right_w : T) : Area4D T :=
  ⟨⟨lower_left_x, lower_left_y, lower_left_z, lower_left_w⟩,
   ⟨upper_right_x, upper_right_y, upper_right_z, upper_right_w⟩⟩

/-- Area4D::get_width: the source returns the w-axis difference, not x. -/
def Area4D.get_width (a : Area4D T) : T :=
  a.upper_right.w - a.lower_left.w

/-- Area4D::get_center: componentwise average of the corners. -/
def Area4D.get_center (a : Area4D T) : Vector4 T :=
  ⟨(a.lower_left.x + a.upper_right.x) / (1 + 1),
   (a.lower_left.y + a.upper_right.y) / (1 + 1),
   (a.lower_left.z + a.upper_right.z) / (1 + 1),
   (a.lower_left.w + a.upper_right.w) / (1 + 1)⟩

/-- Area4D::contains: the source tests the x, y and z axes only; it never
compares the w components. -/
def Area4D.contains (a : Area4D T) (point : Vector4 T) : Bool :=
  decide (point.x ≥ a.lower_left.x ∧ point.x ≤ a.upper_right.x ∧
          point.y ≥ a.lower_left.y ∧ point.y ≤ a.upper_right.y ∧
          point.z ≥ a.lower_left.z ∧ point.z ≤ a.upper_right.z)

/-- Bounds4D: center and per-axis half-extents in 4D. -/
structure Bounds4D (T : Type) where
  center : Vector4 T
  extents : Vector4 T
  deriving DecidableEq

/-- Bounds4D::new with positional scalar arguments (center components
first, then extents components). -/
def Bounds4D.new (center_x center_y center_z center_w extents_x extents_y extents_z extents_w : T) : Bounds4D T :=
  ⟨⟨center_x, center_y, center_z, center_w⟩,
   ⟨extents_x, extents_y, extents_z, extents_w⟩⟩

/-- From Area4D for Bounds4D: the source passes get_width() / 2 (itself the
w-axis size) for all four extents. -/
def Bounds4D.from_area4d (area : Area4D T) : Bounds4D T :=
  Bounds4D.new
    area.get_center.x
    area.get_center.y
    area.get_center.z
    area.get_center.w
    (area.get_width / (1 + 1))
    (area.get_width / (1 + 1))
    (area.get_width / (1 + 1))
    (area.get_width / (1 + 1))

/-- From Bounds4D for Area4D: the argument order of the source call to
Area4D::new is reproduced verbatim (center.x + extents.x is passed in the
lower_left_w position, and so on). -/
def Area4D.from_bounds4d (bounds : Bounds4D T) : Area4D T :=
  Area4D.new
    (bounds.center.x - bounds.extents.x)
    (bounds.center.y - bounds.extents.y)
    (bounds.center.z - bounds.extents.z)
    (bounds.center.x + bounds.extents.x)
    (bounds.center.y + bounds.extents.y)
    (bounds.center.z + bounds.extents.z)
    (bounds.center.w - bounds.extents.w)
    (bounds.center.w + bounds.extents.w)

/-- Circle: center and radius. -/
structure Circle (T : Type) where
  center : Vector2 T
  radius : T
  deriving DecidableEq

/-- Circle::overlaps: strict comparison of squared center distance against
the squared radius sum. -/
def Circle.overlaps (c other : Circle T) : Bool :=
  let delta := other.center - c.center
  let distance_squared := delta.sqr_magnitude
  let radius_sum := c.radius + other.radius
  decide (distance_squared < radius_sum * radius_sum)

/-- Sphere: center and radius in 3D. -/
structure Sphere (T : Type) where
  center : Vector3 T
  radius : T
  deriving DecidableEq

/-- Sphere::overlaps: strict comparison of squared center distance against
the squared radius sum. -/
def Sphere.overlaps (s other : Sphere T) : Bool :=
  let delta := other.center - s.center
  let distance_squared := delta.sqr_magnitude
  let radius_sum := s.radius + other.radius
  decide (distance_squared < radius_sum * radius_sum)

/-- Line2D: start and end points. -/
structure Line2D (T : Type) where
  start : Vector2 T
  «end» : Vector2 T
  deriving DecidableEq

/-- Line2D::intersects: bounding-interval rejection on each axis, then the
sign-aware parametric alpha/beta tests, the parallel (f = 0) rejection, and
finally the intersection point.  Each early `return None` of the source is
a `none` branch here. -/
def Line2D.intersects (l1 l2 : Line2D T) : Option (Vector2 T) :=
  let p1 := l1.start
  let p2 := l1.«end»
  let p3 := l2.start
  let p4 := l2.«end»
  let ax := p2.x - p1.x
  let bx := p3.x - p4.x
  let x1lo := if ax < 0 then p2.x else p1.x
  let x1hi := if ax < 0 then p1.x else p2.x
  if (if bx > 0 then x1hi < p4.x ∨ p3.x < x1lo else x1hi < p3.x ∨ p4.x < x1lo) then
    none
  else
    let ay := p2.y - p1.y
    let «by» := p3.y - p4.y
    let y1lo := if ay < 0 then p2.y else p1.y
    let y1hi := if ay < 0 then p1.y else p2.y
    if (if «by» > 0 then y1hi < p4.y ∨ p3.y < y1lo else y1hi < p3.y ∨ p4.y < y1lo) then
      none
    else
      let cx := p1.x - p3.x
      let cy := p1.y - p3.y
      let d := «by» * cx - bx * cy
      let f := ay * bx - ax * «by»
      if (if f > 0 then d < 0 ∨ d > f else d > 0 ∨ d < f) then
        none
      else
        let e := ax * cy - ay * cx
        if (if f > 0 then e < 0 ∨ e > f else e > 0 ∨ e < f) then
          none
        else
          if f = 0 then
            none
          else
            some ⟨p1.x + d * ax / f, p1.y + d * ay / f⟩

/-- C1: the claim states that every representation round trip reproduces the
original box, in particular Area2D -> Bounds2D -> Area2D and
Area4D -> Bounds4D -> Area4D.  The code fails this: Bounds2D::from(Area2D)
derives BOTH extents from get_width(), and the 4D conversions additionally
use the w-axis size for every extent and scramble the corner arguments.
This theorem evaluates both round trips at concrete boxes and shows the
results differ from the originals. -/
theorem C1_roundtrip_failure :
    Area2D.from_bounds2d (Bounds2D.from_area2d (⟨⟨0, 0⟩, ⟨2, 4⟩⟩ : Area2D ℚ)) =
      ⟨⟨0, 1⟩, ⟨2, 3⟩⟩ ∧
    Area2D.from_bounds2d (Bounds2D.from_area2d (⟨⟨0, 0⟩, ⟨2, 4⟩⟩ : Area2D ℚ)) ≠
      ⟨⟨0, 0⟩, ⟨2, 4⟩⟩ ∧
    Area4D.from_bounds4d (Bounds4D.from_area4d (⟨⟨0, 0, 0, 0⟩, ⟨1, 1, 1, 1⟩⟩ : Area4D ℚ)) =
      ⟨⟨0, 0, 0, 1⟩, ⟨1, 1, 0, 1⟩⟩ ∧
    Area4D.from_bounds4d (Bounds4D.from_area4d (⟨⟨0, 0, 0, 0⟩, ⟨1, 1, 1, 1⟩⟩ : Area4D ℚ)) ≠
      ⟨⟨0, 0, 0, 0⟩, ⟨1, 1, 1, 1⟩⟩ := by
  refine ⟨?_, ?_, ?_, ?_⟩ <;>
    norm_num [Area2D.from_bounds2d, Bounds2D.from_area2d, Area2D.new, Bounds2D.new, Area2D.get_center, Area2D.get_size, Area2D.get_width, Area2D.get_height, Area4D.from_bounds4d, Bounds4D.from_area4d, Area4D.new, Bounds4D.new, Area4D.get_center, Area4D.get_width]

/-- C2: the claim states that converting a Bounds to an Area yields
lower_left = center - extents and upper_right = center + extents on every
axis, in particular for Bounds4D.  The code passes the eight arguments of
Area4D::new in a scrambled order, so on the bounds with center (0,0,0,0)
and extents (1,2,3,4) it produces lower_left (-1,-2,-3,1) and upper_right
(2,3,-4,4) instead of the claimed (-1,-2,-3,-4) and (1,2,3,4). -/
theorem C2_from_bounds4d_failure :
    Area4D.from_bounds4d (Bounds4D.new (0 : ℚ) 0 0 0 1 2 3 4) =
      ⟨⟨-1, -2, -3, 1⟩, ⟨2, 3, -4, 4⟩⟩ ∧
    Area4D.from_bounds4d (Bounds4D.new (0 : ℚ) 0 0 0 1 2 3 4) ≠
      ⟨⟨-1, -2, -3, -4⟩, ⟨1, 2, 3, 4⟩⟩ := by
  refine ⟨?_, ?_⟩ <;> norm_num [Area4D.from_bounds4d, Bounds4D.from_area4d, Area4D.new, Bounds4D.new, Area4D.get_center, Area4D.get_width]

/-- C3: the claim states that Area4D::contains holds iff the point lies in
the inclusive interval on every one of the four axes.  The code never
compares the w components: the point (1/2, 1/2, 1/2, 5) is reported as
contained in the unit box although its w coordinate 5 exceeds the box's
upper_right.w = 1. -/
theorem C3_contains_ignores_w :
    Area4D.contains (⟨⟨0, 0, 0, 0⟩, ⟨1, 1, 1, 1⟩⟩ : Area4D ℚ) ⟨1/2, 1/2, 1/2, 5⟩ = true ∧
    ¬ ((⟨1/2, 1/2, 1/2, 5⟩ : Vector4 ℚ).w ≤
        (⟨⟨0, 0, 0, 0⟩, ⟨1, 1, 1, 1⟩⟩ : Area4D ℚ).upper_right.w) := by
  refine ⟨?_, ?_⟩ <;> norm_num [Area4D.contains]

/-- C4 counterexample: the claim quantifies over every Rect, but a Rect with
negative width refutes it: for r = Rect(0, 0, -1, 1) and p = (0, 0) the
claimed premises hold (p.x = r.x and r.y ≤ p.y ≤ r.y + r.height) yet
contains returns false, because p.x ≤ r.x + r.width fails. -/
theorem C4_counterexample :
    ((⟨0, 0⟩ : Vector2 ℚ).x = (⟨0, 0, -1, 1⟩ : Rect ℚ).x ∧
     (⟨0, 0, -1, 1⟩ : Rect ℚ).y ≤ (⟨0, 0⟩ : Vector2 ℚ).y ∧
     (⟨0, 0⟩ : Vector2 ℚ).y ≤ (⟨0, 0, -1, 1⟩ : Rect ℚ).y + (⟨0, 0, -1, 1⟩ : Rect ℚ).height) ∧
    Rect.contains (⟨0, 0, -1, 1⟩ : Rect ℚ) ⟨0, 0⟩ = false := by
  refine ⟨⟨?_, ?_, ?_⟩, ?_⟩ <;> norm_num [Rect.contains]

/-- C4 (amended): a point on the left edge is contained by Rect and Area2D
provided the box is not inverted on the x axis (Rect needs 0 ≤ width,
Area2D needs lower_left.x ≤ upper_right.x), while Bounds2D, whose
containment test is strict, never contains a point on the edge
x = center.x - extents.x. -/
theorem C4_boundary_amended (T : Type) [LinearOrderedField T] :
    (∀ (r : Rect T) (p : Vector2 T), 0 ≤ r.width → p.x = r.x →
      r.y ≤ p.y → p.y ≤ r.y + r.height → r.contains p = true) ∧
    (∀ (a : Area2D T) (p : Vector2 T), a.lower_left.x ≤ a.upper_right.x →
      p.x = a.lower_left.x → a.lower_left.y ≤ p.y → p.y ≤ a.upper_right.y →
      a.contains p = true) ∧
    (∀ (b : Bounds2D T) (p : Vector2 T), p.x = b.center.x - b.extents.x →
      b.contains p = false) := by
  refine ⟨fun r p hw hx hy1 hy2 => ?_, fun a p hord hx hy1 hy2 => ?_, fun b p hx => ?_⟩
  · simp only [Rect.contains, decide_eq_true_eq, ge_iff_le]
    exact ⟨by linarith, by linarith, hy1, hy2⟩
  · simp only [Area2D.contains, decide_eq_true_eq, ge_iff_le]
    exact ⟨by linarith, by linarith, hy1, hy2⟩
  · simp only [Bounds2D.contains, decide_eq_false_iff_not, gt_iff_lt]
    rintro ⟨h1, -, -, -⟩
    rw [hx] at h1
    exact lt_irrefl _ h1

/-- C4 witness: the amended theorem applied at concrete inputs. -/
theorem C4_boundary_amended_wit :
    Rect.contains (⟨0, 0, 2, 2⟩ : Rect ℚ) ⟨0, 1⟩ = true ∧
    Area2D.contains (⟨⟨0, 0⟩, ⟨2, 2⟩⟩ : Area2D ℚ) ⟨0, 1⟩ = true ∧
    Bounds2D.contains (⟨⟨0, 0⟩, ⟨1, 1⟩⟩ : Bounds2D ℚ) ⟨-1, 0⟩ = false :=
  ⟨(C4_boundary_amended ℚ).1 _ _ (by norm_num) (by norm_num) (by norm_num) (by norm_num),
   (C4_boundary_amended ℚ).2.1 _ _ (by norm_num) (by norm_num) (by norm_num) (by norm_num),
   (C4_boundary_amended ℚ).2.2 _ _ (by norm_num)⟩

/-- C5: ball overlap is strict.  Two circles (or spheres) whose centers are
at squared distance exactly (r1 + r2)^2 do not overlap; squared distance
strictly below (r1 + r2)^2 overlaps. -/
theorem C5_ball_overlap_strict (T : Type) [LinearOrderedField T] :
    (∀ c1 c2 : Circle T,
      (c2.center - c1.center).sqr_magnitude = (c1.radius + c2.radius) * (c1.radius + c2.radius) →
      c1.overlaps c2 = false) ∧
    (∀ c1 c2 : Circle T,
      (c2.center - c1.center).sqr_magnitude < (c1.radius + c2.radius) * (c1.radius + c2.radius) →
      c1.overlaps c2 = true) ∧
    (∀ s1 s2 : Sphere T,
      (s2.center - s1.center).sqr_magnitude = (s1.radius + s2.radius) * (s1.radius + s2.radius) →
      s1.overlaps s2 = false) ∧
    (∀ s1 s2 : Sphere T,
      (s2.center - s1.center).sqr_magnitude < (s1.radius + s2.radius) * (s1.radius + s2.radius) →
      s1.overlaps s2 = true) := by
  refine ⟨fun c1 c2 h => ?_, fun c1 c2 h => ?_, fun s1 s2 h => ?_, fun s1 s2 h => ?_⟩
  · simp only [Circle.overlaps, decide_eq_false_iff_not]
    rw [h]
    exact lt_irrefl _
  · simp only [Circle.overlaps, decide_eq_true_eq]
    exact h
  · simp only [Sphere.overlaps, decide_eq_false_iff_not]
    rw [h]
    exact lt_irrefl _
  · simp only [Sphere.overlaps, decide_eq_true_eq]
    exact h

/-- C5 witness: touching circles/spheres do not overlap, strictly closer
ones do. -/
theorem C5_ball_overlap_strict_wit :
    Circle.overlaps (⟨⟨0, 0⟩, 1⟩ : Circle ℚ) ⟨⟨2, 0⟩, 1⟩ = false ∧
    Circle.overlaps (⟨⟨0, 0⟩, 1⟩ : Circle ℚ) ⟨⟨1, 0⟩, 1⟩ = true ∧
    Sphere.overlaps (⟨⟨0, 0, 0⟩, 1⟩ : Sphere ℚ) ⟨⟨2, 0, 0⟩, 1⟩ = false ∧
    Sphere.overlaps (⟨⟨0, 0, 0⟩, 1⟩ : Sphere ℚ) ⟨⟨1, 0, 0⟩, 1⟩ = true :=
  ⟨(C5_ball_overlap_strict ℚ).1 _ _ (by norm_num [Vector2.sqr_magnitude]),
   (C5_ball_overlap_strict ℚ).2.1 _ _ (by norm_num [Vector2.sqr_magnitude]),
   (C5_ball_overlap_strict ℚ).2.2.1 _ _ (by norm_num [Vector3.sqr_magnitude]),
   (C5_ball_overlap_strict ℚ).2.2.2 _ _ (by norm_num [Vector3.sqr_magnitude])⟩

set_option maxHeartbeats 1600000 in
/-- C6: any two parallel segments (zero cross product of the two delta
vectors) yield no intersection, and in particular the parallel
non-collinear pair (0,0)-(1,0), (0,1)-(1,1) and the collinear disjoint
pair (0,0)-(1,0), (2,0)-(3,0) report none. -/
theorem C6_parallel_none (T : Type) [LinearOrderedField T] :
    (∀ l1 l2 : Line2D T,
      (l1.«end».x - l1.start.x) * (l2.«end».y - l2.start.y) -
        (l1.«end».y - l1.start.y) * (l2.«end».x - l2.start.x) = 0 →
      l1.intersects l2 = none) ∧
    Line2D.intersects (⟨⟨0, 0⟩, ⟨1, 0⟩⟩ : Line2D ℚ) ⟨⟨0, 1⟩, ⟨1, 1⟩⟩ = none ∧
    Line2D.intersects (⟨⟨0, 0⟩, ⟨1, 0⟩⟩ : Line2D ℚ) ⟨⟨2, 0⟩, ⟨3, 0⟩⟩ = none := by
  refine ⟨fun l1 l2 h => ?_, by norm_num [Line2D.intersects], by norm_num [Line2D.intersects]⟩
  have hf : (l1.«end».y - l1.start.y) * (l2.start.x - l2.«end».x) -
      (l1.«end».x - l1.start.x) * (l2.start.y - l2.«end».y) = 0 := by
    linear_combination h
  simp only [Line2D.intersects]
  rw [hf]
  split_ifs <;> first | rfl | exact absurd rfl (by assumption)

/-- C6 witness: the general part of the parallel theorem applied to a
concrete parallel pair. -/
theorem C6_parallel_none_wit :
    Line2D.intersects (⟨⟨0, 0⟩, ⟨2, 0⟩⟩ : Line2D ℚ) ⟨⟨0, 3⟩, ⟨2, 3⟩⟩ = none :=
  (C6_parallel_none ℚ).1 _ _ (by norm_num)

/-- C7: the segments (0,0)-(2,2) and (0,2)-(2,0) intersect at (1,1). -/
theorem C7_cross_intersection :
    Line2D.intersects (⟨⟨0, 0⟩, ⟨2, 2⟩⟩ : Line2D ℚ) ⟨⟨0, 2⟩, ⟨2, 0⟩⟩ = some ⟨1, 1⟩ := by
  norm_num [Line2D.intersects]

/-- C8: set_width preserves the center for both Area2D (get_center is
unchanged) and Bounds2D (the center field is untouched), for arbitrary
starting values and target widths. -/
theorem C8_set_width_center (T : Type) [LinearOrderedField T] :
    (∀ (a : Area2D T) (w : T), (a.set_width w).get_center = a.get_center) ∧
    (∀ (b : Bounds2D T) (w : T), (b.set_width w).center = b.center) := by
  constructor
  · intro a w
    have h2 : ((1 : T) + 1) ≠ 0 := by positivity
    ext
    · simp only [Area2D.set_width, Area2D.get_center, Area2D.get_size,
        Area2D.get_width, Area2D.get_height, Vector2.add_x, Vector2.div_x]
      field_simp
      ring
    · simp only [Area2D.set_width, Area2D.get_center, Area2D.get_size,
        Area2D.get_width, Area2D.get_height, Vector2.add_y, Vector2.div_y]
  · intro b w
    rfl

/-- C9 counterexample: the claim asks only for non-negative extents, but a
Bounds2D with zero extents does not contain its own center, because the
Bounds containment test is strict. -/
theorem C9_counterexample :
    ((0 : ℚ) ≤ (⟨⟨0, 0⟩, ⟨0, 0⟩⟩ : Bounds2D ℚ).extents.x ∧
     (0 : ℚ) ≤ (⟨⟨0, 0⟩, ⟨0, 0⟩⟩ : Bounds2D ℚ).extents.y) ∧
    Bounds2D.contains (⟨⟨0, 0⟩, ⟨0, 0⟩⟩ : Bounds2D ℚ)
      (⟨⟨0, 0⟩, ⟨0, 0⟩⟩ : Bounds2D ℚ).center = false := by
  refine ⟨⟨?_, ?_⟩, ?_⟩ <;> norm_num [Bounds2D.contains]

/-- C9 (amended): a Rect contains its own center whenever width and height
are non-negative; a Bounds2D contains its own center whenever both extents
are strictly positive (non-negative is not enough, since the Bounds test
is strict). -/
theorem C9_center_amended (T : Type) [LinearOrderedField T] :
    (∀ r : Rect T, 0 ≤ r.width → 0 ≤ r.height → r.contains r.get_center = true) ∧
    (∀ b : Bounds2D T, 0 < b.extents.x → 0 < b.extents.y →
      b.contains b.center = true) := by
  constructor
  · intro r hw hh
    have h2 : (0 : T) < 1 + 1 := by positivity
    have hwd : 0 ≤ r.width / (1 + 1) := div_nonneg hw h2.le
    have hhd : 0 ≤ r.height / (1 + 1) := div_nonneg hh h2.le
    have hwu : r.width / (1 + 1) ≤ r.width := by
      rw [div_le_iff₀ h2]
      nlinarith
    have hhu : r.height / (1 + 1) ≤ r.height := by
      rw [div_le_iff₀ h2]
      nlinarith
    simp only [Rect.contains, Rect.get_center, decide_eq_true_eq, ge_iff_le]
    exact ⟨by linarith, by linarith, by linarith, by linarith⟩
  · intro b hx hy
    simp only [Bounds2D.contains, decide_eq_true_eq, gt_iff_lt]
    exact ⟨by linarith, by linarith, by linarith, by linarith⟩

/-- C9 witness: the amended theorem applied at concrete boxes. -/
theorem C9_center_amended_wit :
    Rect.contains (⟨0, 0, 2, 4⟩ : Rect ℚ) (Rect.get_center ⟨0, 0, 2, 4⟩) = true ∧
    Bounds2D.contains (⟨⟨0, 0⟩, ⟨1, 2⟩⟩ : Bounds2D ℚ)
      (⟨⟨0, 0⟩, ⟨1, 2⟩⟩ : Bounds2D ℚ).center = true :=
  ⟨(C9_center_amended ℚ).1 _ (by norm_num) (by norm_num),
   (C9_center_amended ℚ).2 _ (by norm_num) (by norm_num)⟩

/-- C10: set_center preserves the size of an Area2D (width and height) and
of an Area3D (width, height and depth).  For 2D both corners are translated
by the same delta; for 3D the x and y corner components are translated by
the same delta while the z components are never touched by Vector3's +=,
so the depth is preserved trivially. -/
theorem C10_set_center_size (T : Type) [LinearOrderedField T] :
    (∀ (a : Area2D T) (c : Vector2 T),
      (a.set_center c).get_width = a.get_width ∧
      (a.set_center c).get_height = a.get_height) ∧
    (∀ (a : Area3D T) (c : Vector3 T),
      (a.set_center c).get_width = a.get_width ∧
      (a.set_center c).get_height = a.get_height ∧
      (a.set_center c).get_depth = a.get_depth) := by
  constructor
  · intro a c
    refine ⟨?_, ?_⟩ <;>
      simp only [Area2D.set_center, Area2D.get_width, Area2D.get_height,
        Vector2.add_x, Vector2.add_y, Vector2.sub_x, Vector2.sub_y] <;>
      ring
  · intro a c
    refine ⟨?_, ?_, ?_⟩ <;>
      simp only [Area3D.set_center, Area3D.get_width, Area3D.get_height,
        Area3D.get_depth, Vector3.add_assign_x, Vector3.add_assign_y,
        Vector3.add_assign_z, Vector3.sub_x3, Vector3.sub_y3, Vector3.sub_z3] <;>
      ring

end Geo
